import Mathlib

/-!
Shallow embedding of the position-resolution engine in `src/main.ts`
(a Deno service that answers "where is trailer X" from a SkyBitz
position feed, with a Deno KV cache and a web-mercator static-map
projector).  Timestamps are milliseconds as `Int`; JavaScript numbers
carried by positions are modelled as `ℚ`, and the real-valued
projection math as `ℝ`.
-/

namespace Trailers

/-- Constant `SKYBITZ_MIN_INTERVAL_MS` (main.ts line 31): the soft TTL, 10 minutes. -/
def SKYBITZ_MIN_INTERVAL_MS : Int := 10 * 60000

/-- Constant `MAX_STALE_MS` (main.ts line 33): the hard TTL, 30 days. -/
def MAX_STALE_MS : Int := 30 * 24 * 60 * 60000

/-- Type `Pos` (main.ts line 26): a cached position record. -/
structure Pos where
  ts : Int
  lat : ℚ
  lon : ℚ
  time : Option String
deriving DecidableEq

/-- Type `Env` (main.ts lines 18-24): configuration values. -/
structure Env where
  TG_BOT_TOKEN : String
  SKYBITZ_BASE_URL : String
  SKYBITZ_USER : String
  SKYBITZ_PASS : String
  SKYBITZ_VERSION : String
deriving DecidableEq

/-- The Deno KV store restricted to the keys the service uses:
`posKey assetId = ["pos", assetId]`, so the store is a map from asset id
to an optional `Pos`. -/
def Cache : Type := String → Option Pos

/-- Function `kvGetPos` (main.ts lines 118-121). -/
def kvGetPos (cache : Cache) (assetId : String) : Option Pos :=
  cache assetId

/-- Function `kvSetPos` (main.ts lines 123-125): overwrite the entry at
`["pos", assetId]`, leaving every other key unchanged. -/
def kvSetPos (cache : Cache) (assetId : String) (pos : Pos) : Cache :=
  fun k => if k = assetId then some pos else cache k

/-- The list of missing required configuration values, in the order
`ensureEnv` (main.ts lines 246-253) collects them (a falsy string in
JS is the empty string). -/
def missingEnv (env : Env) : List String :=
  (if env.TG_BOT_TOKEN = "" then ["TG_BOT_TOKEN"] else []) ++
  (if env.SKYBITZ_BASE_URL = "" then ["SKYBITZ_BASE_URL"] else []) ++
  (if env.SKYBITZ_USER = "" then ["SKYBITZ_USER"] else []) ++
  (if env.SKYBITZ_PASS = "" then ["SKYBITZ_PASS"] else [])

/-- The message of the error `ensureEnv` throws when configuration is
missing (main.ts line 252). -/
def missingEnvMsg (env : Env) : String :=
  "Missing env: " ++ String.intercalate ", " (missingEnv env)

/-- A JSON field value as the adapter inspects it: a number, or
present but of some other type (`typeof x !== "number"`). -/
inductive JsonField where
  | num (q : ℚ)
  | other
deriving DecidableEq

/-- One `gls` record of the SkyBitz JSON payload; each field may be
absent (`undefined` under optional chaining). -/
structure GlsRec where
  latitude : Option JsonField
  longitude : Option JsonField
  time : Option String
deriving DecidableEq

/-- The `skybitz.gls` slot (main.ts line 14): an object, an array, or
absent. -/
inductive GlsVal where
  | single (r : GlsRec)
  | array (rs : List GlsRec)
  | absent
deriving DecidableEq

/-- Type `SkybitzJson` (main.ts lines 11-16): the provider response body. -/
structure SkybitzJson where
  error : Option Nat
  gls : GlsVal
deriving DecidableEq

/-- Outcome of the HTTP transaction inside `fetchLatestFromSkybitz`:
a parsed JSON body, a non-ok status (`!res.ok`), or a transport
failure that rejects with some message. -/
inductive HttpResult where
  | ok (body : SkybitzJson)
  | notOk (status : Nat)
  | netFail (msg : String)
deriving DecidableEq

/-- Line `const rec = Array.isArray(gls) ? gls[0] : gls` (main.ts line 147);
`gls[0]` on an empty array is `undefined`, and an absent `gls` flows
through as `undefined`. -/
def extractRec : GlsVal → Option GlsRec
  | GlsVal.single r => some r
  | GlsVal.array rs => rs.head?
  | GlsVal.absent => none

/-- Main.ts lines 149-154: read `rec?.latitude`, `rec?.longitude`,
`rec?.time`; if either coordinate is absent or not a number, return
`null`, else build the `Pos` with `ts = Date.now()`. -/
def recToPos (now : Int) : Option GlsRec → Option Pos
  | none => none
  | some r =>
    match r.latitude, r.longitude with
    | some (JsonField.num lat), some (JsonField.num lon) =>
        some { ts := now, lat := lat, lon := lon, time := r.time }
    | _, _ => none

/-- Function `fetchLatestFromSkybitz` (main.ts lines 129-155), as a function of
the HTTP outcome and the current time.  `Except.error msg` models a
thrown error with message `msg`; `Except.ok none` models returning
`null`. -/
def fetchLatestFromSkybitz (now : Int) : HttpResult → Except String (Option Pos)
  | HttpResult.netFail m => Except.error m
  | HttpResult.notOk status => Except.error ("SkyBitz HTTP " ++ toString status)
  | HttpResult.ok body =>
    let err := body.error.getD 0
    if err ≠ 0 then Except.error ("SkyBitz error " ++ toString err)
    else Except.ok (recToPos now (extractRec body.gls))

/-- Does `pat` occur as a contiguous run inside `msg`? -/
def hasInfixList (pat : List Char) : List Char → Bool
  | [] => List.isPrefixOf pat []
  | c :: rest => List.isPrefixOf pat (c :: rest) || hasInfixList pat rest

/-- JS `msg.includes(pat)`: substring containment. -/
def msgIncludes (msg pat : String) : Bool :=
  hasInfixList pat.data msg.data

/-- What the handler sends back for one resolution: `sent p` models a
`sendPos` call with position `p`; the other constructors model the
three terminal `tgSendMessage` texts (no data, rate limited, generic
error). -/
inductive ResolveResult where
  | sent (p : Pos)
  | noDataMsg
  | rateLimitedMsg
  | errorMsg (msg : String)
deriving DecidableEq

/-- Does the result carry a position (the spec's `ResolvedPosition`)?
Anything else is the orchestrator's `NoDataAvailable` outcome,
possibly annotated. -/
def isNoDataAvailable : ResolveResult → Bool
  | ResolveResult.sent _ => false
  | _ => true

/-- The `catch` block of the handler (main.ts lines 86-108): if the
message contains `"SkyBitz error 97"` serve a hard-fresh cached entry
or the rate-limit notice; otherwise serve a hard-fresh cached entry or
the generic error text.  The block re-reads the cache and the clock;
in this sequential model both re-reads give the same values. -/
def handleCatch (cache : Cache) (assetId : String) (now : Int) (msg : String) :
    ResolveResult :=
  if msgIncludes msg "SkyBitz error 97" then
    match kvGetPos cache assetId with
    | some c =>
        if now - c.ts < MAX_STALE_MS then ResolveResult.sent c
        else ResolveResult.rateLimitedMsg
    | none => ResolveResult.rateLimitedMsg
  else
    match kvGetPos cache assetId with
    | some c =>
        if now - c.ts < MAX_STALE_MS then ResolveResult.sent c
        else ResolveResult.errorMsg msg
    | none => ResolveResult.errorMsg msg

/-- Steps 2-3 of the handler (main.ts lines 68-108), reached when the
soft-fresh check did not fire: `ensureEnv`, the adapter call, the
empty-result fallback, and the `catch` block.  Returns the result, the
cache after the resolution, and whether `fetchLatestFromSkybitz` was
invoked. -/
def resolveMiss (env : Env) (cache : Cache) (assetId : String) (now : Int)
    (upstream : Except String (Option Pos)) :
    ResolveResult × Cache × Bool :=
  if missingEnv env ≠ [] then
    (handleCatch cache assetId now (missingEnvMsg env), cache, false)
  else
    match upstream with
    | Except.error msg => (handleCatch cache assetId now msg, cache, true)
    | Except.ok (some fresh) =>
        (ResolveResult.sent fresh, kvSetPos cache assetId fresh, true)
    | Except.ok none =>
        match kvGetPos cache assetId with
        | some c =>
            if now - c.ts < MAX_STALE_MS then (ResolveResult.sent c, cache, true)
            else (ResolveResult.noDataMsg, cache, true)
        | none => (ResolveResult.noDataMsg, cache, true)

/-- The resolution path of the request handler (main.ts lines 59-108)
for a sanitized asset id: serve a soft-fresh cached entry without
touching SkyBitz, otherwise run `resolveMiss`.  `upstream` is the
outcome the adapter call would produce if invoked. -/
def resolve (env : Env) (cache : Cache) (assetId : String) (now : Int)
    (upstream : Except String (Option Pos)) :
    ResolveResult × Cache × Bool :=
  match kvGetPos cache assetId with
  | some c =>
      if now - c.ts < SKYBITZ_MIN_INTERVAL_MS then (ResolveResult.sent c, cache, false)
      else resolveMiss env cache assetId now upstream
  | none => resolveMiss env cache assetId now upstream

/-- Earth radius constant `R = 6378137` (main.ts lines 207 and 227). -/
def earthR : ℝ := 6378137

/-- The latitude clamp of `lonLatToWebMercator` (main.ts line 229):
`Math.max(Math.min(lat, 85.05112878), -85.05112878)`. -/
noncomputable def clampLat (lat : ℝ) : ℝ :=
  max (min lat 85.05112878) (-85.05112878)

/-- Function `lonLatToWebMercator` (main.ts lines 226-232), over the
reals: `x = lon·π/180·R`, `y = log (tan (π/4 + clampedLat·π/180/2))·R`. -/
noncomputable def lonLatToWebMercator (lon lat : ℝ) : ℝ × ℝ :=
  (lon * Real.pi / 180 * earthR,
   Real.log (Real.tan (Real.pi / 4 + clampLat lat * Real.pi / 180 / 2)) * earthR)

/-- Meters per pixel at an integer zoom level (main.ts lines 208-209):
`2πR / (256·2^zoom)`. -/
noncomputable def resAtZoom (zoom : ℕ) : ℝ :=
  2 * Real.pi * earthR / (256 * 2 ^ zoom)

/-- The bounding box `[x - halfW, y - halfH, x + halfW, y + halfH]`
computed inside `esriWorldImageryStatic` (main.ts lines 204-214), as
`(minX, minY, maxX, maxY)`. -/
noncomputable def esriBBox (lat lon : ℝ) (zoom : ℕ) (w h : ℝ) :
    ℝ × ℝ × ℝ × ℝ :=
  let p := lonLatToWebMercator lon lat
  let halfW := w * resAtZoom zoom / 2
  let halfH := h * resAtZoom zoom / 2
  (p.1 - halfW, p.2 - halfH, p.1 + halfW, p.2 + halfH)

/-! Concrete inputs used by witnesses and counterexamples. -/

/-- A fully populated configuration. -/
def envA : Env := ⟨"token", "https://xml.skybitz.example", "user", "pass", "2.76"⟩

/-- A configuration with every required value absent. -/
def envMissing : Env := ⟨"", "", "", "", "2.76"⟩

/-- The empty cache. -/
def emptyCache : Cache := fun _ => none

/-- The position of spec Scenario A, accepted at time 0. -/
def posLA : Pos := { ts := 0, lat := 34.05, lon := -118.25, time := none }

/-- A provider body carrying Scenario A's fix. -/
def bodyLA : SkybitzJson :=
  ⟨some 0, GlsVal.single ⟨some (JsonField.num 34.05), some (JsonField.num (-118.25)), none⟩⟩

/-- A provider body whose numeric coordinates are far outside the
latitude/longitude ranges. -/
def bodyOutOfRange : SkybitzJson :=
  ⟨some 0, GlsVal.single ⟨some (JsonField.num 200), some (JsonField.num 300), none⟩⟩

/-- A gls record with no latitude field. -/
def glsNoLat : GlsRec := ⟨none, some (JsonField.num 1), none⟩

/-! Helper lemmas shared by the claim proofs. -/

/-- Soft-fresh entries are hard-fresh: the soft TTL (10 minutes) is
below the hard TTL (30 days). -/
theorem softFresh_hardFresh (now : Int) (c : Pos)
    (h : now - c.ts < SKYBITZ_MIN_INTERVAL_MS) : now - c.ts < MAX_STALE_MS :=
  lt_trans h (by norm_num [SKYBITZ_MIN_INTERVAL_MS, MAX_STALE_MS])

/-- Inversion for the record parser: a position is produced only from
a record with present, numeric latitude and longitude, and carries the
clock value as its timestamp. -/
theorem recToPos_some_inv (now : Int) (r : GlsRec) (p : Pos)
    (h : recToPos now (some r) = some p) :
    r.latitude = some (JsonField.num p.lat) ∧ r.longitude = some (JsonField.num p.lon)
      ∧ p.ts = now ∧ p.time = r.time := by
  obtain ⟨lat0, lon0, t0⟩ := r
  obtain ⟨pts, plat, plon, ptime⟩ := p
  rcases lat0 with _ | f
  · simp [recToPos] at h
  · cases f with
    | other => simp [recToPos] at h
    | num q =>
      rcases lon0 with _ | g
      · simp [recToPos] at h
      · cases g with
        | other => simp [recToPos] at h
        | num q2 =>
          simp only [recToPos, Option.some.injEq, Pos.mk.injEq] at h
          obtain ⟨h1, h2, h3, h4⟩ := h
          subst h1; subst h2; subst h3; subst h4
          exact ⟨rfl, rfl, rfl, rfl⟩

/-- Unfolding equation for the adapter on a parsed body. -/
theorem fetchLatest_ok_def (now : Int) (body : SkybitzJson) :
    fetchLatestFromSkybitz now (HttpResult.ok body)
      = if body.error.getD 0 ≠ 0
        then Except.error ("SkyBitz error " ++ toString (body.error.getD 0))
        else Except.ok (recToPos now (extractRec body.gls)) := rfl

/-- Inversion for the adapter: an `Ok` position comes from an
error-free body whose first record has numeric coordinates. -/
theorem fetchLatest_ok_inv (now : Int) (body : SkybitzJson) (p : Pos)
    (h : fetchLatestFromSkybitz now (HttpResult.ok body) = Except.ok (some p)) :
    ∃ r, extractRec body.gls = some r
      ∧ r.latitude = some (JsonField.num p.lat)
      ∧ r.longitude = some (JsonField.num p.lon)
      ∧ p.ts = now := by
  rw [fetchLatest_ok_def] at h
  by_cases he : body.error.getD 0 ≠ 0
  · rw [if_pos he] at h
    exact Except.noConfusion h
  · rw [if_neg he] at h
    have h2 : recToPos now (extractRec body.gls) = some p := by
      injection h
    cases hr : extractRec body.gls with
    | none => rw [hr] at h2; exact Option.noConfusion h2
    | some r =>
      rw [hr] at h2
      obtain ⟨ha, hb, hc, _⟩ := recToPos_some_inv now r p h2
      exact ⟨r, rfl, ha, hb, hc⟩

/-- The timestamp of any position the adapter returns is the clock
value at the call. -/
theorem fetchLatest_ok_ts (now : Int) (hres : HttpResult) (p : Pos)
    (h : fetchLatestFromSkybitz now hres = Except.ok (some p)) : p.ts = now := by
  cases hres with
  | netFail m => exact Except.noConfusion h
  | notOk s => exact Except.noConfusion h
  | ok body =>
    obtain ⟨r, -, -, -, hts⟩ := fetchLatest_ok_inv now body p h
    exact hts

/-- Unfolding equation for `resolve` on a cache hit. -/
theorem resolve_some_def (env : Env) (cache : Cache) (assetId : String) (now : Int)
    (upstream : Except String (Option Pos)) (c : Pos)
    (hc : kvGetPos cache assetId = some c) :
    resolve env cache assetId now upstream
      = if now - c.ts < SKYBITZ_MIN_INTERVAL_MS then (ResolveResult.sent c, cache, false)
        else resolveMiss env cache assetId now upstream := by
  unfold resolve
  rw [hc]

/-- Unfolding equation for `resolve` on a cache miss. -/
theorem resolve_none_def (env : Env) (cache : Cache) (assetId : String) (now : Int)
    (upstream : Except String (Option Pos))
    (hc : kvGetPos cache assetId = none) :
    resolve env cache assetId now upstream = resolveMiss env cache assetId now upstream := by
  unfold resolve
  rw [hc]

/-- Unfolding equation for `resolveMiss` when configuration is complete. -/
theorem resolveMiss_env_ok_def (env : Env) (cache : Cache) (assetId : String) (now : Int)
    (upstream : Except String (Option Pos))
    (henv : missingEnv env = []) :
    resolveMiss env cache assetId now upstream
      = match upstream with
        | Except.error msg => (handleCatch cache assetId now msg, cache, true)
        | Except.ok (some fresh) =>
            (ResolveResult.sent fresh, kvSetPos cache assetId fresh, true)
        | Except.ok none =>
            match kvGetPos cache assetId with
            | some c =>
                if now - c.ts < MAX_STALE_MS then (ResolveResult.sent c, cache, true)
                else (ResolveResult.noDataMsg, cache, true)
            | none => (ResolveResult.noDataMsg, cache, true) := by
  unfold resolveMiss
  exact if_neg (not_not_intro henv)

/-- Unfolding equation for `resolveMiss` when configuration is missing:
the thrown `ensureEnv` error lands in the catch block and the adapter
is never invoked. -/
theorem resolveMiss_missing_def (env : Env) (cache : Cache) (assetId : String) (now : Int)
    (upstream : Except String (Option Pos))
    (hmiss : missingEnv env ≠ []) :
    resolveMiss env cache assetId now upstream
      = (handleCatch cache assetId now (missingEnvMsg env), cache, false) := by
  unfold resolveMiss
  exact if_pos hmiss

/-- The catch block serves any hard-fresh cached entry, for every
error message. -/
theorem handleCatch_hard_fresh (cache : Cache) (assetId : String) (now : Int)
    (msg : String) (c : Pos)
    (hc : kvGetPos cache assetId = some c) (hf : now - c.ts < MAX_STALE_MS) :
    handleCatch cache assetId now msg = ResolveResult.sent c := by
  unfold handleCatch
  rw [hc]
  split
  · exact if_pos hf
  · exact if_pos hf

/-- Without a hard-fresh cached entry, the catch block reports the
rate-limit notice exactly when the message contains the reserved
substring, and the generic error otherwise. -/
theorem handleCatch_stale (cache : Cache) (assetId : String) (now : Int) (msg : String)
    (h : ∀ c, kvGetPos cache assetId = some c → ¬(now - c.ts < MAX_STALE_MS)) :
    handleCatch cache assetId now msg
      = if msgIncludes msg "SkyBitz error 97" then ResolveResult.rateLimitedMsg
        else ResolveResult.errorMsg msg := by
  unfold handleCatch
  cases hc : kvGetPos cache assetId with
  | none => split <;> rfl
  | some c =>
    have hst := h c hc
    split
    · exact if_neg hst
    · exact if_neg hst

/-- C1.  For every asset identifier with a cached entry whose age
`now - entry.ts` is strictly below the soft TTL, `resolve` returns
that cached position unchanged, leaves the cache unchanged, and never
invokes the upstream adapter, whatever the adapter outcome `upstream`
would have been. -/
theorem C1_soft_fresh_served_without_adapter
    (env : Env) (cache : Cache) (assetId : String) (now : Int)
    (upstream : Except String (Option Pos)) (c : Pos)
    (hc : kvGetPos cache assetId = some c)
    (hfresh : now - c.ts < SKYBITZ_MIN_INTERVAL_MS) :
    resolve env cache assetId now upstream = (ResolveResult.sent c, cache, false) := by
  unfold resolve
  rw [hc]
  exact if_pos hfresh

/-- Witness for C1 at a concrete soft-fresh entry (adapter set to
throw). -/
theorem C1_witness :
    resolve envA (kvSetPos emptyCache "H03036" posLA) "H03036" 1 (Except.error "boom")
      = (ResolveResult.sent posLA, kvSetPos emptyCache "H03036" posLA, false) :=
  C1_soft_fresh_served_without_adapter envA (kvSetPos emptyCache "H03036" posLA)
    "H03036" 1 (Except.error "boom") posLA rfl (by decide)

/-- C2.  For every asset identifier and every adapter outcome that is
not `Ok` (empty result, rate-limit error, HTTP or transport error):
if a cache entry exists whose age is strictly below the hard TTL
`MAX_STALE_MS`, `resolve` returns that cached position; if no such
entry exists, `resolve` ends in its `NoDataAvailable` outcome.  In
particular an entry aged beyond the soft TTL but within the hard TTL
is served when the adapter reports the rate-limit error. -/
theorem C2_non_ok_hard_fresh_fallback
    (env : Env) (cache : Cache) (assetId : String) (now : Int)
    (upstream : Except String (Option Pos))
    (henv : missingEnv env = [])
    (hnotOk : ∀ p : Pos, upstream ≠ Except.ok (some p)) :
    (∀ c, kvGetPos cache assetId = some c → now - c.ts < MAX_STALE_MS →
        (resolve env cache assetId now upstream).1 = ResolveResult.sent c)
    ∧ ((∀ c, kvGetPos cache assetId = some c → ¬(now - c.ts < MAX_STALE_MS)) →
        isNoDataAvailable (resolve env cache assetId now upstream).1 = true) := by
  constructor
  · intro c hc hhard
    rw [resolve_some_def env cache assetId now upstream c hc]
    by_cases hsoft : now - c.ts < SKYBITZ_MIN_INTERVAL_MS
    · rw [if_pos hsoft]
    · rw [if_neg hsoft, resolveMiss_env_ok_def env cache assetId now upstream henv]
      cases upstream with
      | error msg =>
        exact handleCatch_hard_fresh cache assetId now msg c hc hhard
      | ok v =>
        cases v with
        | some p => exact absurd rfl (hnotOk p)
        | none =>
          show (match kvGetPos cache assetId with
            | some c =>
                if now - c.ts < MAX_STALE_MS then (ResolveResult.sent c, cache, true)
                else (ResolveResult.noDataMsg, cache, true)
            | none => (ResolveResult.noDataMsg, cache, true) :
              ResolveResult × Cache × Bool).1 = ResolveResult.sent c
          rw [hc]
          exact congrArg Prod.fst (if_pos hhard)
  · intro hstale
    have hres : (resolve env cache assetId now upstream)
        = resolveMiss env cache assetId now upstream := by
      cases hc : kvGetPos cache assetId with
      | none => exact resolve_none_def env cache assetId now upstream hc
      | some c =>
        rw [resolve_some_def env cache assetId now upstream c hc]
        have : ¬(now - c.ts < SKYBITZ_MIN_INTERVAL_MS) := fun hs =>
          hstale c hc (softFresh_hardFresh now c hs)
        rw [if_neg this]
    rw [hres, resolveMiss_env_ok_def env cache assetId now upstream henv]
    cases upstream with
    | error msg =>
      show isNoDataAvailable (handleCatch cache assetId now msg) = true
      rw [handleCatch_stale cache assetId now msg hstale]
      split <;> rfl
    | ok v =>
      cases v with
      | some p => exact absurd rfl (hnotOk p)
      | none =>
        show isNoDataAvailable (match kvGetPos cache assetId with
          | some c =>
              if now - c.ts < MAX_STALE_MS then (ResolveResult.sent c, cache, true)
              else (ResolveResult.noDataMsg, cache, true)
          | none => (ResolveResult.noDataMsg, cache, true) :
            ResolveResult × Cache × Bool).1 = true
        cases hc : kvGetPos cache assetId with
        | none => rfl
        | some c =>
          show isNoDataAvailable (if now - c.ts < MAX_STALE_MS
              then ((ResolveResult.sent c, cache, true) : ResolveResult × Cache × Bool)
              else (ResolveResult.noDataMsg, cache, true)).1 = true
          rw [if_neg (hstale c hc)]
          rfl

/-- Witness for C2, at the claim's own scenario: an entry aged 700000
milliseconds (beyond the 600000 soft TTL, within the hard TTL) is
served when the adapter throws the rate-limit error. -/
theorem C2_witness :
    (resolve envA (kvSetPos emptyCache "H03036" posLA) "H03036" 700000
        (Except.error "SkyBitz error 97")).1 = ResolveResult.sent posLA :=
  (C2_non_ok_hard_fresh_fallback envA (kvSetPos emptyCache "H03036" posLA) "H03036"
      700000 (Except.error "SkyBitz error 97") rfl
      (fun p h => Except.noConfusion h)).1 posLA rfl (by decide)

/-- C3 counterexample.  A provider record whose coordinates are the
numbers 200 and 300 — far outside latitude ∈ [−90, 90] and
longitude ∈ [−180, 180] — is accepted by the adapter and written to
the cache: the only validation in the code is `typeof === "number"`,
so the claimed range invariant fails. -/
theorem C3_counterexample :
    fetchLatestFromSkybitz 0 (HttpResult.ok bodyOutOfRange)
      = Except.ok (some { ts := 0, lat := 200, lon := 300, time := none })
    ∧ kvGetPos (resolve envA emptyCache "H03036" 0
        (fetchLatestFromSkybitz 0 (HttpResult.ok bodyOutOfRange))).2.1 "H03036"
      = some { ts := 0, lat := 200, lon := 300, time := none }
    ∧ ¬((200 : ℚ) ≤ 90 ∧ (300 : ℚ) ≤ 180) :=
  ⟨rfl, rfl, by norm_num⟩

/-- C3 amended.  The record filter the code actually implements: a
position is produced (and hence can be cached) exactly from records
whose latitude and longitude fields are present and numeric, with no
range validation; records with a missing or non-numeric coordinate
are discarded and never reach the cache. -/
theorem C3_amended_numeric_guard (now : Int) (body : SkybitzJson) (p : Pos)
    (h : fetchLatestFromSkybitz now (HttpResult.ok body) = Except.ok (some p)) :
    ∃ r, extractRec body.gls = some r
      ∧ r.latitude = some (JsonField.num p.lat)
      ∧ r.longitude = some (JsonField.num p.lon) :=
  match fetchLatest_ok_inv now body p h with
  | ⟨r, hr, ha, hb, _⟩ => ⟨r, hr, ha, hb⟩

/-- Witness for the amended C3, at the out-of-range body: the accepted
record's coordinates are the raw numbers 200 and 300. -/
theorem C3_amended_witness :
    ∃ r, extractRec bodyOutOfRange.gls = some r
      ∧ r.latitude = some (JsonField.num (200 : ℚ))
      ∧ r.longitude = some (JsonField.num (300 : ℚ)) :=
  C3_amended_numeric_guard 0 bodyOutOfRange
    { ts := 0, lat := 200, lon := 300, time := none } rfl

/-- C4.  The code classifies a thrown SkyBitz error as rate-limited by
the substring test `msg.includes("SkyBitz error 97")`.  Error code 970
(≠ 97) produces the message "SkyBitz error 970", which contains the
pattern, so a nonzero error code other than 97 takes the rate-limited
branch (here: the rate-limit notice, since the cache is empty), while
code 98 takes the generic `Unavailable` branch — the claim that
exactly code 97 triggers the rate-limited classification fails. -/
theorem C4_substring_misclassifies_970 :
    fetchLatestFromSkybitz 5 (HttpResult.ok { error := some 970, gls := GlsVal.absent })
      = Except.error "SkyBitz error 970"
    ∧ (970 : Nat) ≠ 97
    ∧ msgIncludes "SkyBitz error 970" "SkyBitz error 97" = true
    ∧ (resolve envA emptyCache "H03036" 5
        (fetchLatestFromSkybitz 5 (HttpResult.ok { error := some 970, gls := GlsVal.absent }))).1
      = ResolveResult.rateLimitedMsg
    ∧ (resolve envA emptyCache "H03036" 5
        (fetchLatestFromSkybitz 5 (HttpResult.ok { error := some 98, gls := GlsVal.absent }))).1
      = ResolveResult.errorMsg "SkyBitz error 98" :=
  ⟨rfl, by decide, rfl, rfl, rfl⟩

/-- C5 counterexample.  With every required configuration value absent
but a soft-fresh cache entry present, `resolve` serves the cached
position and never reaches `ensureEnv`: the missing configuration is
neither fatal nor surfaced, contradicting "independent of the cache
state". -/
theorem C5_counterexample :
    missingEnv envMissing = ["TG_BOT_TOKEN", "SKYBITZ_BASE_URL", "SKYBITZ_USER", "SKYBITZ_PASS"]
    ∧ resolve envMissing (kvSetPos emptyCache "H03036" posLA) "H03036" 1 (Except.error "boom")
      = (ResolveResult.sent posLA, kvSetPos emptyCache "H03036" posLA, false) :=
  ⟨rfl, rfl⟩

/-- The `ensureEnv` error message never contains the rate-limit
pattern, whatever subset of variables is missing. -/
theorem missingEnvMsg_not_rate_limited (env : Env) :
    msgIncludes (missingEnvMsg env) "SkyBitz error 97" = false := by
  unfold missingEnvMsg missingEnv
  by_cases h1 : env.TG_BOT_TOKEN = "" <;> by_cases h2 : env.SKYBITZ_BASE_URL = "" <;>
    by_cases h3 : env.SKYBITZ_USER = "" <;> by_cases h4 : env.SKYBITZ_PASS = "" <;>
    simp only [h1, h2, h3, h4, if_true, if_false, if_pos, if_neg, not_false_iff] <;>
    decide

/-- C5 amended.  Absent configuration stops the adapter from ever
being invoked (`resolve` reports the adapter as not called on every
path), and the condition is surfaced as the `Missing env` error
message — but only when no hard-fresh cache entry exists for the
requested asset; a soft-fresh entry is served without any
configuration check, and a hard-fresh entry masks the error by cache
fallback. -/
theorem C5_amended_missing_env
    (env : Env) (cache : Cache) (assetId : String) (now : Int)
    (upstream : Except String (Option Pos))
    (hmiss : missingEnv env ≠ []) :
    (resolve env cache assetId now upstream).2.2 = false
    ∧ ((∀ c, kvGetPos cache assetId = some c → ¬(now - c.ts < MAX_STALE_MS)) →
        (resolve env cache assetId now upstream).1
          = ResolveResult.errorMsg (missingEnvMsg env)) := by
  constructor
  · cases hc : kvGetPos cache assetId with
    | none =>
      rw [resolve_none_def env cache assetId now upstream hc,
        resolveMiss_missing_def env cache assetId now upstream hmiss]
    | some c =>
      rw [resolve_some_def env cache assetId now upstream c hc]
      by_cases hsoft : now - c.ts < SKYBITZ_MIN_INTERVAL_MS
      · rw [if_pos hsoft]
      · rw [if_neg hsoft,
          resolveMiss_missing_def env cache assetId now upstream hmiss]
  · intro hstale
    have hres : resolve env cache assetId now upstream
        = resolveMiss env cache assetId now upstream := by
      cases hc : kvGetPos cache assetId with
      | none => exact resolve_none_def env cache assetId now upstream hc
      | some c =>
        rw [resolve_some_def env cache assetId now upstream c hc]
        exact if_neg (fun hs => hstale c hc (softFresh_hardFresh now c hs))
    rw [hres, resolveMiss_missing_def env cache assetId now upstream hmiss]
    show handleCatch cache assetId now (missingEnvMsg env)
      = ResolveResult.errorMsg (missingEnvMsg env)
    rw [handleCatch_stale cache assetId now (missingEnvMsg env) hstale,
      missingEnvMsg_not_rate_limited env]
    rfl

/-- Witness for the amended C5: all configuration absent, empty cache;
the adapter is reported uncalled and the missing-configuration error
is surfaced. -/
theorem C5_amended_witness :
    (resolve envMissing emptyCache "H03036" 0 (Except.error "boom")).1
      = ResolveResult.errorMsg (missingEnvMsg envMissing) :=
  (C5_amended_missing_env envMissing emptyCache "H03036" 0 (Except.error "boom")
      (by decide)).2 (fun c hc => Option.noConfusion hc)

/-- C6.  Defensive payload handling of the adapter, for every
error-free body: a collection is read through its first element (a
nonempty array parses exactly as that single object would); an empty
collection yields the NoData outcome `ok none`; a record with a
missing or non-numeric coordinate yields `ok none`; and on every
payload shape the adapter returns a value rather than raising. -/
theorem C6_payload_defensive (now : Int) (e : Option Nat) (he : e.getD 0 = 0)
    (r : GlsRec) (rs : List GlsRec) :
    fetchLatestFromSkybitz now (HttpResult.ok ⟨e, GlsVal.array (r :: rs)⟩)
      = fetchLatestFromSkybitz now (HttpResult.ok ⟨e, GlsVal.single r⟩)
    ∧ fetchLatestFromSkybitz now (HttpResult.ok ⟨e, GlsVal.array []⟩) = Except.ok none
    ∧ ((r.latitude = none ∨ r.latitude = some JsonField.other
        ∨ r.longitude = none ∨ r.longitude = some JsonField.other) →
        fetchLatestFromSkybitz now (HttpResult.ok ⟨e, GlsVal.single r⟩) = Except.ok none)
    ∧ (∀ g : GlsVal, ∃ v, fetchLatestFromSkybitz now (HttpResult.ok ⟨e, g⟩) = Except.ok v) := by
  have hne : ¬((⟨e, GlsVal.array (r :: rs)⟩ : SkybitzJson).error.getD 0 ≠ 0) :=
    not_not_intro he
  refine ⟨?_, ?_, ?_, ?_⟩
  · rw [fetchLatest_ok_def, fetchLatest_ok_def, if_neg hne, if_neg hne]
    rfl
  · rw [fetchLatest_ok_def, if_neg hne]
    rfl
  · intro hbad
    rw [fetchLatest_ok_def, if_neg hne]
    have : recToPos now (some r) = none := by
      obtain ⟨lat0, lon0, t0⟩ := r
      rcases hbad with h | h | h | h <;> simp only at h <;> subst h
      · rfl
      · rfl
      · rcases lat0 with _ | f
        · rfl
        · cases f <;> rfl
      · rcases lat0 with _ | f
        · rfl
        · cases f <;> rfl
    show Except.ok (recToPos now (some r)) = Except.ok none
    rw [this]
  · intro g
    exact ⟨recToPos now (extractRec (⟨e, g⟩ : SkybitzJson).gls), by
      rw [fetchLatest_ok_def, if_neg hne]⟩

/-- Witness for C6: a record with no latitude field yields the NoData
outcome. -/
theorem C6_witness :
    fetchLatestFromSkybitz 0 (HttpResult.ok ⟨none, GlsVal.single glsNoLat⟩)
      = Except.ok none :=
  (C6_payload_defensive 0 none rfl glsNoLat []).2.2.1 (Or.inl rfl)

/-- C7.  For every adapter outcome `Ok p` produced by
`fetchLatestFromSkybitz` at time `now`, and every cache without a
soft-fresh entry for the requested asset, `resolve` writes `p` to the
cache under that asset identifier and returns `p`; a second `resolve`
at any time within the soft TTL of the write then returns the
identical position without invoking the adapter, whatever the adapter
would do on the second call. -/
theorem C7_ok_writes_and_caches
    (env : Env) (cache : Cache) (assetId : String) (now now2 : Int)
    (hres : HttpResult) (p : Pos)
    (henv : missingEnv env = [])
    (hnosoft : ∀ c, kvGetPos cache assetId = some c →
        ¬(now - c.ts < SKYBITZ_MIN_INTERVAL_MS))
    (hfetch : fetchLatestFromSkybitz now hres = Except.ok (some p))
    (hsoon : now2 - now < SKYBITZ_MIN_INTERVAL_MS) :
    resolve env cache assetId now (fetchLatestFromSkybitz now hres)
      = (ResolveResult.sent p, kvSetPos cache assetId p, true)
    ∧ ∀ upstream2 : Except String (Option Pos),
        resolve env (kvSetPos cache assetId p) assetId now2 upstream2
          = (ResolveResult.sent p, kvSetPos cache assetId p, false) := by
  constructor
  · have hres1 : resolve env cache assetId now (fetchLatestFromSkybitz now hres)
        = resolveMiss env cache assetId now (fetchLatestFromSkybitz now hres) := by
      cases hc : kvGetPos cache assetId with
      | none => exact resolve_none_def env cache assetId now _ hc
      | some c =>
        rw [resolve_some_def env cache assetId now _ c hc]
        exact if_neg (hnosoft c hc)
    rw [hres1, resolveMiss_env_ok_def env cache assetId now _ henv, hfetch]
  · intro upstream2
    have hget : kvGetPos (kvSetPos cache assetId p) assetId = some p := by
      unfold kvGetPos kvSetPos
      rw [if_pos rfl]
    have hts : p.ts = now := fetchLatest_ok_ts now hres p hfetch
    rw [resolve_some_def env (kvSetPos cache assetId p) assetId now2 upstream2 p hget]
    rw [hts]
    exact if_pos hsoon

/-- Witness for C7, at spec Scenario A: empty cache, adapter returns
the fix (34.05, −118.25); the position is written to the cache and
returned. -/
theorem C7_witness :
    resolve envA emptyCache "H03036" 0 (fetchLatestFromSkybitz 0 (HttpResult.ok bodyLA))
      = (ResolveResult.sent posLA, kvSetPos emptyCache "H03036" posLA, true) :=
  (C7_ok_writes_and_caches envA emptyCache "H03036" 0 1 (HttpResult.ok bodyLA) posLA
      rfl (fun c hc => Option.noConfusion hc) rfl (by decide)).1

/-- C8.  For every latitude, longitude, integer zoom and pixel extent,
the bounding box built inside `esriWorldImageryStatic` is centered on
the projected point — `(minX + maxX)/2` and `(minY + maxY)/2` equal
`lonLatToWebMercator lon lat` — and its width `maxX − minX` equals
`w · res(zoom)` with `res(zoom) = 2πR/(256·2^zoom)` (exactly, in the
real-number model of the floating-point computation). -/
theorem C8_bbox_center_and_width (lat lon : ℝ) (zoom : ℕ) (w h : ℝ) :
    (((esriBBox lat lon zoom w h).1 + (esriBBox lat lon zoom w h).2.2.1) / 2,
      ((esriBBox lat lon zoom w h).2.1 + (esriBBox lat lon zoom w h).2.2.2) / 2)
      = lonLatToWebMercator lon lat
    ∧ (esriBBox lat lon zoom w h).2.2.1 - (esriBBox lat lon zoom w h).1
      = w * resAtZoom zoom := by
  refine ⟨Prod.ext ?_ ?_, ?_⟩ <;>
    simp only [esriBBox] <;> ring

/-- C9.  For every latitude beyond the projection's valid range
(|lat| > 85.05112878) and every longitude, the projection clamps the
latitude first: its value, and the whole bounding box built from it,
equal those of the boundary latitude ±85.05112878, so the computation
stays at the (finite) boundary values instead of diverging. -/
theorem C9_latitude_clamped (lat lon : ℝ) (zoom : ℕ) (w h : ℝ)
    (hl : 85.05112878 < |lat|) :
    lonLatToWebMercator lon lat
      = lonLatToWebMercator lon (if 0 ≤ lat then (85.05112878 : ℝ) else -85.05112878)
    ∧ esriBBox lat lon zoom w h
      = esriBBox (if 0 ≤ lat then (85.05112878 : ℝ) else -85.05112878) lon zoom w h := by
  have hclamp : clampLat lat = if 0 ≤ lat then (85.05112878 : ℝ) else -85.05112878 := by
    rcases le_or_lt 0 lat with h0 | h0
    · rw [if_pos h0]
      have hgt : (85.05112878 : ℝ) < lat := by rwa [abs_of_nonneg h0] at hl
      unfold clampLat
      rw [min_eq_right hgt.le, max_eq_left (by norm_num)]
    · rw [if_neg (not_le_of_lt h0)]
      have hlt : lat < -85.05112878 := by
        have := (abs_of_neg h0) ▸ hl
        linarith
      unfold clampLat
      rw [min_eq_left (by linarith), max_eq_right hlt.le]
  have hfix : clampLat (if 0 ≤ lat then (85.05112878 : ℝ) else -85.05112878)
      = if 0 ≤ lat then (85.05112878 : ℝ) else -85.05112878 := by
    rcases le_or_lt 0 lat with h0 | h0
    · rw [if_pos h0]
      unfold clampLat
      rw [min_self, max_eq_left (by norm_num)]
    · rw [if_neg (not_le_of_lt h0)]
      unfold clampLat
      rw [min_eq_left (by norm_num), max_self]
  have hproj : lonLatToWebMercator lon lat
      = lonLatToWebMercator lon (if 0 ≤ lat then (85.05112878 : ℝ) else -85.05112878) := by
    unfold lonLatToWebMercator
    rw [hclamp, hfix]
  exact ⟨hproj, by unfold esriBBox; rw [hproj]⟩

/-- Witness for C9 at spec Scenario E: latitude 89.9° projects, and
bounds its box, exactly as the clamped boundary latitude does. -/
theorem C9_witness :
    lonLatToWebMercator 0 89.9
      = lonLatToWebMercator 0 (if (0 : ℝ) ≤ 89.9 then (85.05112878 : ℝ) else -85.05112878)
    ∧ esriBBox 89.9 0 18 900 600
      = esriBBox (if (0 : ℝ) ≤ 89.9 then (85.05112878 : ℝ) else -85.05112878) 0 18 900 600 :=
  C9_latitude_clamped 89.9 0 18 900 600
    (by rw [abs_of_nonneg (by norm_num)]; norm_num)

/-- The catch block reads the cache only at the requested key. -/
theorem handleCatch_congr (cache2 cache : Cache) (a : String) (now : Int) (msg : String)
    (h : kvGetPos cache2 a = kvGetPos cache a) :
    handleCatch cache2 a now msg = handleCatch cache a now msg := by
  unfold handleCatch
  rw [h]

/-- The miss path reads the cache only at the requested key: its
result and its adapter-invocation flag agree on any two caches whose
entries at that key agree. -/
theorem resolveMiss_congr (env : Env) (cache2 cache : Cache) (a : String) (now : Int)
    (u : Except String (Option Pos))
    (h : kvGetPos cache2 a = kvGetPos cache a) :
    (resolveMiss env cache2 a now u).1 = (resolveMiss env cache a now u).1
    ∧ (resolveMiss env cache2 a now u).2.2 = (resolveMiss env cache a now u).2.2 := by
  by_cases hm : missingEnv env ≠ []
  · rw [resolveMiss_missing_def env cache2 a now u hm,
      resolveMiss_missing_def env cache a now u hm]
    exact ⟨handleCatch_congr cache2 cache a now (missingEnvMsg env) h, rfl⟩
  · have hm2 : missingEnv env = [] := not_not.mp hm
    rw [resolveMiss_env_ok_def env cache2 a now u hm2,
      resolveMiss_env_ok_def env cache a now u hm2]
    cases u with
    | error msg => exact ⟨handleCatch_congr cache2 cache a now msg h, rfl⟩
    | ok v =>
      cases v with
      | some p => exact ⟨rfl, rfl⟩
      | none =>
        rw [h]
        cases hcc : kvGetPos cache a with
        | none => exact ⟨rfl, rfl⟩
        | some c =>
          constructor
          · show (if now - c.ts < MAX_STALE_MS
                then ((ResolveResult.sent c, cache2, true) : ResolveResult × Cache × Bool)
                else (ResolveResult.noDataMsg, cache2, true)).1
              = (if now - c.ts < MAX_STALE_MS
                then ((ResolveResult.sent c, cache, true) : ResolveResult × Cache × Bool)
                else (ResolveResult.noDataMsg, cache, true)).1
            by_cases hh : now - c.ts < MAX_STALE_MS
            · rw [if_pos hh, if_pos hh]
            · rw [if_neg hh, if_neg hh]
          · show (if now - c.ts < MAX_STALE_MS
                then ((ResolveResult.sent c, cache2, true) : ResolveResult × Cache × Bool)
                else (ResolveResult.noDataMsg, cache2, true)).2.2
              = (if now - c.ts < MAX_STALE_MS
                then ((ResolveResult.sent c, cache, true) : ResolveResult × Cache × Bool)
                else (ResolveResult.noDataMsg, cache, true)).2.2
            by_cases hh : now - c.ts < MAX_STALE_MS
            · rw [if_pos hh, if_pos hh]
            · rw [if_neg hh, if_neg hh]

/-- The miss path writes the cache only at the requested key. -/
theorem resolveMiss_frame (env : Env) (cache : Cache) (a : String) (now : Int)
    (u : Except String (Option Pos)) (b : String) (hb : b ≠ a) :
    kvGetPos (resolveMiss env cache a now u).2.1 b = kvGetPos cache b := by
  by_cases hm : missingEnv env ≠ []
  · rw [resolveMiss_missing_def env cache a now u hm]
  · have hm2 : missingEnv env = [] := not_not.mp hm
    rw [resolveMiss_env_ok_def env cache a now u hm2]
    cases u with
    | error msg => rfl
    | ok v =>
      cases v with
      | some p =>
        show kvGetPos (kvSetPos cache a p) b = kvGetPos cache b
        unfold kvGetPos kvSetPos
        rw [if_neg hb]
      | none =>
        cases hc : kvGetPos cache a with
        | none => rfl
        | some c =>
          show kvGetPos (if now - c.ts < MAX_STALE_MS
              then ((ResolveResult.sent c, cache, true) : ResolveResult × Cache × Bool)
              else (ResolveResult.noDataMsg, cache, true)).2.1 b = kvGetPos cache b
          split <;> rfl

/-- C10.  Resolution for asset `assetId` touches only the cache key
`["pos", assetId]`: for every outcome, every other key's entry is
unchanged by the resolution (write frame), and the resolution's result
and its adapter-invocation flag depend on the cache only through its
entry at `assetId` (read frame). -/
theorem C10_only_own_key
    (env : Env) (cache : Cache) (assetId : String) (now : Int)
    (upstream : Except String (Option Pos)) (b : String) (hb : b ≠ assetId) :
    kvGetPos (resolve env cache assetId now upstream).2.1 b = kvGetPos cache b
    ∧ ∀ cache2 : Cache, kvGetPos cache2 assetId = kvGetPos cache assetId →
        (resolve env cache2 assetId now upstream).1
          = (resolve env cache assetId now upstream).1
        ∧ (resolve env cache2 assetId now upstream).2.2
          = (resolve env cache assetId now upstream).2.2 := by
  constructor
  · cases hc : kvGetPos cache assetId with
    | none =>
      rw [resolve_none_def env cache assetId now upstream hc]
      exact resolveMiss_frame env cache assetId now upstream b hb
    | some c =>
      rw [resolve_some_def env cache assetId now upstream c hc]
      by_cases hsoft : now - c.ts < SKYBITZ_MIN_INTERVAL_MS
      · rw [if_pos hsoft]
      · rw [if_neg hsoft]
        exact resolveMiss_frame env cache assetId now upstream b hb
  · intro cache2 h2
    cases hc : kvGetPos cache assetId with
    | none =>
      have hc2 : kvGetPos cache2 assetId = none := h2.trans hc
      rw [resolve_none_def env cache assetId now upstream hc,
        resolve_none_def env cache2 assetId now upstream hc2]
      exact resolveMiss_congr env cache2 cache assetId now upstream h2
    | some c =>
      have hc2 : kvGetPos cache2 assetId = some c := h2.trans hc
      rw [resolve_some_def env cache assetId now upstream c hc,
        resolve_some_def env cache2 assetId now upstream c hc2]
      by_cases hsoft : now - c.ts < SKYBITZ_MIN_INTERVAL_MS
      · rw [if_pos hsoft, if_pos hsoft]
        exact ⟨rfl, rfl⟩
      · rw [if_neg hsoft, if_neg hsoft]
        exact resolveMiss_congr env cache2 cache assetId now upstream h2

/-- Witness for C10: a resolution of "H03036" leaves the entry of
"T123" untouched. -/
theorem C10_witness :
    kvGetPos (resolve envA emptyCache "H03036" 0 (Except.ok none)).2.1 "T123"
      = kvGetPos emptyCache "T123" :=
  (C10_only_own_key envA emptyCache "H03036" 0 (Except.ok none) "T123" (by decide)).1

end Trailers
